import Mathlib

/-!
# AWS SES template updater (`src/index.js`)

A shallow embedding of the GitHub action that pushes one e-mail template to
AWS SES.  The script is a straight line of effects: read action inputs, read
three files, minify the HTML, list the templates of the account, create or
update the template, fetch it again and log it.

The outside world is a parameter of the model:

* `World.getInput` is `CORE.getInput`,
* `World.readFileSync` is `FS.readFileSync(path, 'utf8')`,
* `World.MINIFY` is `html-minifier`'s `minify`,
* `World.stringify` is `JSON.stringify`,
* `World.newSESClient` is `new SES_SDK.SESClient(config)`; the client it
  returns answers each command from a state of type `σ` that stands for the
  remote account.

A computation returns the events it caused (in order), its result or the
JavaScript error it threw, and the final state of the remote account.

Assumptions of the model: the script is the only thread of control; building
the client does not throw; a successful `ListTemplates` response carries a
`TemplatesMetadata` array; a file keeps its contents during a run.
-/

namespace SesTemplateUpdater

/-! ## Values -/

/-- A thrown JavaScript error: its `name` and its `message`. -/
structure JsError where
  name : String
  message : String
  deriving DecidableEq, Repr

/-- The result of `new Error(message)`. -/
def newError (message : String) : JsError := ⟨"Error", message⟩

/-- The `Template` record of the SES API. The script always sends the three
parts; a stored template may lack any of them. -/
structure Template where
  TemplateName : String
  HtmlPart : Option String
  SubjectPart : Option String
  TextPart : Option String
  deriving DecidableEq, Repr

/-- One entry of `TemplatesMetadata` in a `ListTemplates` response. `Name` is
optional in the SDK's type; the creation timestamp is never read. -/
structure TemplateMetadata where
  Name : Option String
  deriving DecidableEq, Repr

/-- The input of `ListTemplatesCommand`. -/
structure ListTemplatesInput where
  MaxItems : Option Nat
  NextToken : Option String
  deriving DecidableEq, Repr

/-- The input object `{}`. -/
def ListTemplatesInput.empty : ListTemplatesInput := ⟨none, none⟩

/-- The response of `ListTemplatesCommand`. -/
structure ListTemplatesOutput where
  TemplatesMetadata : List TemplateMetadata
  NextToken : Option String
  deriving DecidableEq, Repr

/-- The response of `GetTemplateCommand`. -/
structure GetTemplateOutput where
  Template : Option Template
  deriving DecidableEq, Repr

/-- The four commands the script sends. -/
inductive Command where
  | ListTemplates (input : ListTemplatesInput)
  | GetTemplate (TemplateName : String)
  | CreateTemplate (Template : Template)
  | UpdateTemplate (Template : Template)
  deriving DecidableEq, Repr

/-- The options object passed to `MINIFY`. -/
structure MinifyOptions where
  collapseWhitespace : Bool
  minifyCSS : Bool
  minifyJS : Bool
  deriving DecidableEq, Repr

/-- The `credentials` of the client configuration. -/
structure Credentials where
  accessKeyId : String
  secretAccessKey : String
  deriving DecidableEq, Repr

/-- The configuration object passed to `new SES_SDK.SESClient`. -/
structure SESClientConfig where
  region : String
  credentials : Option Credentials
  deriving DecidableEq, Repr

/-- What the rest of the world can observe of a run. A `send` carries the
error the remote call failed with, if it failed. -/
inductive Event where
  | readFile (path : String)
  | send (cmd : Command) (failure : Option JsError)
  | info (msg : String)
  | setFailed (msg : String)
  deriving DecidableEq, Repr

/-- Equality of results is decidable when equality of errors and of values is. -/
instance {ε α : Type} [DecidableEq ε] [DecidableEq α] : DecidableEq (Except ε α)
  | .error a, .error b => if h : a = b then isTrue (by rw [h]) else isFalse (by simpa using h)
  | .ok a, .ok b => if h : a = b then isTrue (by rw [h]) else isFalse (by simpa using h)
  | .error _, .ok _ => isFalse (by simp)
  | .ok _, .error _ => isFalse (by simp)

/-! ## Computations -/

/-- The result of running a computation: the events, the value or the thrown
error, the remote state afterwards. -/
structure Res (σ α : Type) where
  log : List Event
  out : Except JsError α
  st : σ

/-- A computation over the remote state `σ`. -/
def Prog (σ α : Type) : Type := σ → Res σ α

/-- Return a value, no effect. -/
def Prog.pure {σ α : Type} (a : α) : Prog σ α := fun s => ⟨[], .ok a, s⟩

/-- Sequencing: a thrown error skips the rest. -/
def Prog.bind {σ α β : Type} (m : Prog σ α) (f : α → Prog σ β) : Prog σ β := fun s =>
  match m s with
  | ⟨l, .error e, s1⟩ => ⟨l, .error e, s1⟩
  | ⟨l, .ok a, s1⟩ => ⟨l ++ (f a s1).log, (f a s1).out, (f a s1).st⟩

instance {σ : Type} : Monad (Prog σ) where
  pure := Prog.pure
  bind := Prog.bind

/-- The statement `throw e`. -/
def throwJs {σ α : Type} (e : JsError) : Prog σ α := fun s => ⟨[], .error e, s⟩

/-- Record one event. -/
def emit {σ : Type} (ev : Event) : Prog σ Unit := fun s => ⟨[ev], .ok (), s⟩

/-- The handler of `promise.catch(handler)`: runs on a rejection only. -/
def Prog.catch {σ α : Type} (m : Prog σ α) (handler : JsError → Prog σ α) : Prog σ α := fun s =>
  match m s with
  | ⟨l, .error e, s1⟩ => ⟨l ++ (handler e s1).log, (handler e s1).out, (handler e s1).st⟩
  | ⟨l, .ok a, s1⟩ => ⟨l, .ok a, s1⟩

/-- A client of the remote service: how each command is answered from a
remote state, and the state it leaves. -/
structure SESClient (σ : Type) where
  listTemplates : ListTemplatesInput → σ → Except JsError ListTemplatesOutput × σ
  getTemplate : String → σ → Except JsError GetTemplateOutput × σ
  createTemplate : Template → σ → Except JsError Unit × σ
  updateTemplate : Template → σ → Except JsError Unit × σ

/-- The collaborators of the script. -/
structure World (σ : Type) where
  getInput : String → String
  readFileSync : String → Except JsError String
  MINIFY : String → MinifyOptions → Except JsError String
  stringify : Option Template → String
  newSESClient : SESClientConfig → SESClient σ

/-- The expression `await SES_CLIENT.send(command)` for a command answered by
`answer`: the call is recorded together with its failure. -/
def send {σ α : Type} (cmd : Command) (answer : σ → Except JsError α × σ) : Prog σ α := fun s =>
  match answer s with
  | (.error e, s1) => ⟨[Event.send cmd (some e)], .error e, s1⟩
  | (.ok a, s1) => ⟨[Event.send cmd none], .ok a, s1⟩

/-- Call a synchronous library function that may throw. -/
def call {σ α : Type} (r : Except JsError α) : Prog σ α := fun s => ⟨[], r, s⟩

/-! ## The script -/

/-- Line 5 of the source. -/
def SIMULATING_ON_LOCAL : Bool := false

/-- The function `CORE.info`. -/
def CORE.info {σ : Type} (msg : String) : Prog σ Unit := emit (Event.info msg)

/-- The function `CORE.setFailed`. -/
def CORE.setFailed {σ : Type} (msg : String) : Prog σ Unit := emit (Event.setFailed msg)

/-- Lines 35-52: the values used when simulating on a developer's machine. -/
def getGithubActionInputValueSimulating {σ : Type} (inputKey : String) : Prog σ String :=
  if inputKey = "templateName" then pure "UserAccountDeleted"
  else if inputKey = "subjectFilePath" then pure "ses/templates/UserAccountDeleted/subject.txt"
  else if inputKey = "htmlBodyFilePath" then pure "ses/templates/UserAccountDeleted/email.html"
  else if inputKey = "rawBodyFilePath" then pure "ses/templates/UserAccountDeleted/email.txt"
  else if inputKey = "sesRegion" then pure "us-east-1"
  else throwJs (newError
    ("Invalid " ++ inputKey ++ ": did you forget to set it in getGithubActionInputValueSimulating()"))

/-- Lines 17-28. -/
def getGithubActionInputValue {σ : Type} (w : World σ) (inputKey : String) : Prog σ String :=
  if SIMULATING_ON_LOCAL then
    getGithubActionInputValueSimulating inputKey
  else
    let value := w.getInput inputKey
    if value = "" then
      throwJs (newError
        ("Invalid " ++ inputKey ++ ": did you forget to set it in your action config?"))
    else
      pure value

/-- Lines 59-61. -/
def getFileContents {σ : Type} (w : World σ) (filePath : String) : Prog σ String := do
  emit (Event.readFile filePath)
  call (w.readFileSync filePath)

/-- Lines 66-78: the client is built when the module is loaded. -/
def SES_CLIENT {σ : Type} (w : World σ) : Prog σ (SESClient σ) :=
  if SIMULATING_ON_LOCAL then do
    let region ← getGithubActionInputValue w "sesRegion"
    pure (w.newSESClient { region := region, credentials := none })
  else do
    let region ← getGithubActionInputValue w "sesRegion"
    let accessKeyId ← getGithubActionInputValue w "awsAccessKey"
    let secretAccessKey ← getGithubActionInputValue w "awsSecretKey"
    pure (w.newSESClient
      { region := region,
        credentials := some { accessKeyId := accessKeyId, secretAccessKey := secretAccessKey } })

/-- Lines 84-92. -/
def getTemplateFromAwsSes {σ : Type} (client : SESClient σ) (templateName : String) :
    Prog σ GetTemplateOutput := do
  let existingTemplate ← send (Command.GetTemplate templateName) (client.getTemplate templateName)
  pure existingTemplate

/-- The method `Array.prototype.findIndex`: the first index whose element
satisfies `p`, or `-1`. -/
def findIndex {α : Type} (p : α → Bool) : List α → Int
  | [] => -1
  | x :: xs => if p x then 0 else if findIndex p xs = -1 then -1 else findIndex p xs + 1

/-- Lines 94-125. -/
def updateTemplateOnAwsSes {σ : Type} (w : World σ) (client : SESClient σ)
    (TemplateName SubjectPart TextPart HtmlPart : String) : Prog σ Unit := do
  let existingTemplates ←
    send (Command.ListTemplates ListTemplatesInput.empty)
      (client.listTemplates ListTemplatesInput.empty)
  let templateExistsIndex :=
    findIndex (fun template => decide (template.Name = some TemplateName))
      existingTemplates.TemplatesMetadata
  if templateExistsIndex = -1 then
    send (Command.CreateTemplate ⟨TemplateName, some HtmlPart, some SubjectPart, some TextPart⟩)
      (client.createTemplate ⟨TemplateName, some HtmlPart, some SubjectPart, some TextPart⟩)
  else do
    let before ← getTemplateFromAwsSes client TemplateName
    CORE.info ("Template on AWS SES before updating: " ++ w.stringify before.Template)
    send (Command.UpdateTemplate ⟨TemplateName, some HtmlPart, some SubjectPart, some TextPart⟩)
      (client.updateTemplate ⟨TemplateName, some HtmlPart, some SubjectPart, some TextPart⟩)

/-- Lines 130-150. -/
def run {σ : Type} (w : World σ) (client : SESClient σ) : Prog σ Unit := do
  let templateName ← getGithubActionInputValue w "templateName"
  let subjectFile ← getFileContents w (← getGithubActionInputValue w "subjectFilePath")
  let rawBody ← getFileContents w (← getGithubActionInputValue w "rawBodyFilePath")
  let htmlBody ← do
    let html ← getFileContents w (← getGithubActionInputValue w "htmlBodyFilePath")
    call (w.MINIFY html { collapseWhitespace := true, minifyCSS := true, minifyJS := true })
  updateTemplateOnAwsSes w client templateName subjectFile rawBody htmlBody
  let after ← getTemplateFromAwsSes client templateName
  CORE.info ("Template on AWS SES after updating: " ++ w.stringify after.Template)

/-- The whole module: build the client, then lines 155-158,
`run().catch((e) => { CORE.setFailed(e.message); throw e })`. A result
`.error e` is the process ending on the uncaught error `e`. -/
def script {σ : Type} (w : World σ) : Prog σ Unit := do
  let client ← SES_CLIENT w
  (run w client).catch (fun e => do
    CORE.setFailed e.message
    throwJs e)

/-! ## Reading a log -/

/-- The remote calls of a log, in order. -/
def commands : List Event → List Command
  | [] => []
  | Event.send cmd _ :: l => cmd :: commands l
  | _ :: l => commands l

/-- The remote calls of a log with the failure of each, in order. -/
def sends : List Event → List (Command × Option JsError)
  | [] => []
  | Event.send cmd f :: l => (cmd, f) :: sends l
  | _ :: l => sends l

/-- The lines given to `CORE.info`, in order. -/
def infos : List Event → List String
  | [] => []
  | Event.info msg :: l => msg :: infos l
  | _ :: l => infos l

/-- The paths given to `FS.readFileSync`, in order. -/
def fileReads : List Event → List String
  | [] => []
  | Event.readFile path :: l => path :: fileReads l
  | _ :: l => fileReads l

/-- The messages given to `CORE.setFailed`, in order. -/
def failedWith : List Event → List String
  | [] => []
  | Event.setFailed msg :: l => msg :: failedWith l
  | _ :: l => failedWith l

/-- The seven inputs the script reads, in the order it reads them. -/
def requiredKeys : List String :=
  ["sesRegion", "awsAccessKey", "awsSecretKey", "templateName", "subjectFilePath",
    "rawBodyFilePath", "htmlBodyFilePath"]

/-- The error `getGithubActionInputValue` throws for `inputKey`. -/
def invalidInput (inputKey : String) : JsError :=
  ⟨"Error", "Invalid " ++ inputKey ++ ": did you forget to set it in your action config?"⟩

/-- The `Template` object of lines 111 and 121. -/
def payload (TemplateName SubjectPart TextPart HtmlPart : String) : Template :=
  ⟨TemplateName, some HtmlPart, some SubjectPart, some TextPart⟩

/-- Whether a listing has an entry for `name`. -/
def Listed (lst : ListTemplatesOutput) (name : String) : Prop :=
  ∃ m ∈ lst.TemplatesMetadata, m.Name = some name

instance (lst : ListTemplatesOutput) (name : String) : Decidable (Listed lst name) := by
  unfold Listed; infer_instance

/-- The three reads of a run whose inputs load, in order. -/
def inputReads {σ : Type} (w : World σ) : List Event :=
  [Event.readFile (w.getInput "subjectFilePath"), Event.readFile (w.getInput "rawBodyFilePath"),
    Event.readFile (w.getInput "htmlBodyFilePath")]

/-- The first four statements of `run` succeed with these values. -/
structure InputsOk {σ : Type} (w : World σ) (n cs ct h : String) : Prop where
  name : w.getInput "templateName" = n
  name_ne : w.getInput "templateName" ≠ ""
  subject_ne : w.getInput "subjectFilePath" ≠ ""
  subject : w.readFileSync (w.getInput "subjectFilePath") = .ok cs
  raw_ne : w.getInput "rawBodyFilePath" ≠ ""
  raw : w.readFileSync (w.getInput "rawBodyFilePath") = .ok ct
  html_ne : w.getInput "htmlBodyFilePath" ≠ ""
  html : ∃ c, w.readFileSync (w.getInput "htmlBodyFilePath") = .ok c ∧
    w.MINIFY c ⟨true, true, true⟩ = .ok h

/-- The ways the first four statements of `run` fail: the events up to the
failure and the error thrown. -/
inductive InputsFail {σ : Type} (w : World σ) : List Event → JsError → Prop
  | noName : w.getInput "templateName" = "" → InputsFail w [] (invalidInput "templateName")
  | noSubjectPath : w.getInput "templateName" ≠ "" → w.getInput "subjectFilePath" = "" →
      InputsFail w [] (invalidInput "subjectFilePath")
  | subjectUnread (e : JsError) : w.getInput "templateName" ≠ "" →
      w.getInput "subjectFilePath" ≠ "" →
      w.readFileSync (w.getInput "subjectFilePath") = .error e →
      InputsFail w (List.take 1 (inputReads w)) e
  | noRawPath (cs : String) : w.getInput "templateName" ≠ "" →
      w.getInput "subjectFilePath" ≠ "" →
      w.readFileSync (w.getInput "subjectFilePath") = .ok cs →
      w.getInput "rawBodyFilePath" = "" →
      InputsFail w (List.take 1 (inputReads w)) (invalidInput "rawBodyFilePath")
  | rawUnread (cs : String) (e : JsError) : w.getInput "templateName" ≠ "" →
      w.getInput "subjectFilePath" ≠ "" →
      w.readFileSync (w.getInput "subjectFilePath") = .ok cs →
      w.getInput "rawBodyFilePath" ≠ "" →
      w.readFileSync (w.getInput "rawBodyFilePath") = .error e →
      InputsFail w (List.take 2 (inputReads w)) e
  | noHtmlPath (cs ct : String) : w.getInput "templateName" ≠ "" →
      w.getInput "subjectFilePath" ≠ "" →
      w.readFileSync (w.getInput "subjectFilePath") = .ok cs →
      w.getInput "rawBodyFilePath" ≠ "" →
      w.readFileSync (w.getInput "rawBodyFilePath") = .ok ct →
      w.getInput "htmlBodyFilePath" = "" →
      InputsFail w (List.take 2 (inputReads w)) (invalidInput "htmlBodyFilePath")
  | htmlUnread (cs ct : String) (e : JsError) : w.getInput "templateName" ≠ "" →
      w.getInput "subjectFilePath" ≠ "" →
      w.readFileSync (w.getInput "subjectFilePath") = .ok cs →
      w.getInput "rawBodyFilePath" ≠ "" →
      w.readFileSync (w.getInput "rawBodyFilePath") = .ok ct →
      w.getInput "htmlBodyFilePath" ≠ "" →
      w.readFileSync (w.getInput "htmlBodyFilePath") = .error e →
      InputsFail w (inputReads w) e
  | minifyThrows (cs ct c : String) (e : JsError) : w.getInput "templateName" ≠ "" →
      w.getInput "subjectFilePath" ≠ "" →
      w.readFileSync (w.getInput "subjectFilePath") = .ok cs →
      w.getInput "rawBodyFilePath" ≠ "" →
      w.readFileSync (w.getInput "rawBodyFilePath") = .ok ct →
      w.getInput "htmlBodyFilePath" ≠ "" →
      w.readFileSync (w.getInput "htmlBodyFilePath") = .ok c →
      w.MINIFY c ⟨true, true, true⟩ = .error e →
      InputsFail w (inputReads w) e

/-- The six ways `updateTemplateOnAwsSes` ends, with the exact result of each. -/
inductive ReconcileOutcome {σ : Type} (w : World σ) (client : SESClient σ)
    (n sj tx hm : String) (s : σ) : Res σ Unit → Prop
  | listFails (e : JsError) (s1 : σ) :
      client.listTemplates ListTemplatesInput.empty s = (.error e, s1) →
      ReconcileOutcome w client n sj tx hm s
        ⟨[Event.send (Command.ListTemplates ListTemplatesInput.empty) (some e)], .error e, s1⟩
  | createFails (lst : ListTemplatesOutput) (s1 : σ) (e : JsError) (s2 : σ) :
      client.listTemplates ListTemplatesInput.empty s = (.ok lst, s1) →
      ¬ Listed lst n →
      client.createTemplate (payload n sj tx hm) s1 = (.error e, s2) →
      ReconcileOutcome w client n sj tx hm s
        ⟨[Event.send (Command.ListTemplates ListTemplatesInput.empty) none,
          Event.send (Command.CreateTemplate (payload n sj tx hm)) (some e)], .error e, s2⟩
  | created (lst : ListTemplatesOutput) (s1 s2 : σ) :
      client.listTemplates ListTemplatesInput.empty s = (.ok lst, s1) →
      ¬ Listed lst n →
      client.createTemplate (payload n sj tx hm) s1 = (.ok (), s2) →
      ReconcileOutcome w client n sj tx hm s
        ⟨[Event.send (Command.ListTemplates ListTemplatesInput.empty) none,
          Event.send (Command.CreateTemplate (payload n sj tx hm)) none], .ok (), s2⟩
  | fetchFails (lst : ListTemplatesOutput) (s1 : σ) (e : JsError) (s2 : σ) :
      client.listTemplates ListTemplatesInput.empty s = (.ok lst, s1) →
      Listed lst n →
      client.getTemplate n s1 = (.error e, s2) →
      ReconcileOutcome w client n sj tx hm s
        ⟨[Event.send (Command.ListTemplates ListTemplatesInput.empty) none,
          Event.send (Command.GetTemplate n) (some e)], .error e, s2⟩
  | updateFails (lst : ListTemplatesOutput) (s1 : σ) (g : GetTemplateOutput) (s2 : σ)
      (e : JsError) (s3 : σ) :
      client.listTemplates ListTemplatesInput.empty s = (.ok lst, s1) →
      Listed lst n →
      client.getTemplate n s1 = (.ok g, s2) →
      client.updateTemplate (payload n sj tx hm) s2 = (.error e, s3) →
      ReconcileOutcome w client n sj tx hm s
        ⟨[Event.send (Command.ListTemplates ListTemplatesInput.empty) none,
          Event.send (Command.GetTemplate n) none,
          Event.info ("Template on AWS SES before updating: " ++ w.stringify g.Template),
          Event.send (Command.UpdateTemplate (payload n sj tx hm)) (some e)], .error e, s3⟩
  | updated (lst : ListTemplatesOutput) (s1 : σ) (g : GetTemplateOutput) (s2 s3 : σ) :
      client.listTemplates ListTemplatesInput.empty s = (.ok lst, s1) →
      Listed lst n →
      client.getTemplate n s1 = (.ok g, s2) →
      client.updateTemplate (payload n sj tx hm) s2 = (.ok (), s3) →
      ReconcileOutcome w client n sj tx hm s
        ⟨[Event.send (Command.ListTemplates ListTemplatesInput.empty) none,
          Event.send (Command.GetTemplate n) none,
          Event.info ("Template on AWS SES before updating: " ++ w.stringify g.Template),
          Event.send (Command.UpdateTemplate (payload n sj tx hm)) none], .ok (), s3⟩

/-- The ways `run` ends, with the exact result of each. -/
inductive RunOutcome {σ : Type} (w : World σ) (client : SESClient σ) (s : σ) : Res σ Unit → Prop
  | inputs (l : List Event) (e : JsError) : InputsFail w l e → RunOutcome w client s ⟨l, .error e, s⟩
  | reconcile (n cs ct h : String) (r : Res σ Unit) (e : JsError) : InputsOk w n cs ct h →
      ReconcileOutcome w client n cs ct h s r → r.out = .error e →
      RunOutcome w client s ⟨inputReads w ++ r.log, .error e, r.st⟩
  | afterFails (n cs ct h : String) (r : Res σ Unit) (e : JsError) (s1 : σ) :
      InputsOk w n cs ct h → ReconcileOutcome w client n cs ct h s r → r.out = .ok () →
      client.getTemplate n r.st = (.error e, s1) →
      RunOutcome w client s
        ⟨inputReads w ++ (r.log ++ [Event.send (Command.GetTemplate n) (some e)]), .error e, s1⟩
  | done (n cs ct h : String) (r : Res σ Unit) (g : GetTemplateOutput) (s1 : σ) :
      InputsOk w n cs ct h → ReconcileOutcome w client n cs ct h s r → r.out = .ok () →
      client.getTemplate n r.st = (.ok g, s1) →
      RunOutcome w client s
        ⟨inputReads w ++ (r.log ++ [Event.send (Command.GetTemplate n) none,
          Event.info ("Template on AWS SES after updating: " ++ w.stringify g.Template)]),
          .ok (), s1⟩

/-- The client the module builds from the three connection inputs. -/
def clientOf {σ : Type} (w : World σ) : SESClient σ :=
  w.newSESClient
    { region := w.getInput "sesRegion",
      credentials := some
        { accessKeyId := w.getInput "awsAccessKey", secretAccessKey := w.getInput "awsSecretKey" } }

/-- The ways the whole module ends, with the exact result of each. -/
inductive ScriptOutcome {σ : Type} (w : World σ) (s : σ) : Res σ Unit → Prop
  | noRegion : w.getInput "sesRegion" = "" →
      ScriptOutcome w s ⟨[], .error (invalidInput "sesRegion"), s⟩
  | noAccessKey : w.getInput "sesRegion" ≠ "" → w.getInput "awsAccessKey" = "" →
      ScriptOutcome w s ⟨[], .error (invalidInput "awsAccessKey"), s⟩
  | noSecretKey : w.getInput "sesRegion" ≠ "" → w.getInput "awsAccessKey" ≠ "" →
      w.getInput "awsSecretKey" = "" →
      ScriptOutcome w s ⟨[], .error (invalidInput "awsSecretKey"), s⟩
  | rejected (r : Res σ Unit) (e : JsError) : w.getInput "sesRegion" ≠ "" →
      w.getInput "awsAccessKey" ≠ "" → w.getInput "awsSecretKey" ≠ "" →
      RunOutcome w (clientOf w) s r → r.out = .error e →
      ScriptOutcome w s ⟨r.log ++ [Event.setFailed e.message], .error e, r.st⟩
  | fulfilled (r : Res σ Unit) : w.getInput "sesRegion" ≠ "" →
      w.getInput "awsAccessKey" ≠ "" → w.getInput "awsSecretKey" ≠ "" →
      RunOutcome w (clientOf w) s r → r.out = .ok () →
      ScriptOutcome w s r

/-- Whether a command is a `ListTemplatesCommand`. -/
def Command.isListTemplates : Command → Bool
  | Command.ListTemplates _ => true
  | _ => false

/-! ## A model of the remote store -/

/-- The error of the store for a name it does not hold. -/
def notFoundError (name : String) : JsError :=
  ⟨"NotFoundError", "Template " ++ name ++ " does not exist."⟩

/-- The error of the store for a name it already holds. -/
def alreadyExistsError (name : String) : JsError :=
  ⟨"AlreadyExistsError", "Template " ++ name ++ " already exists."⟩

/-- Modelled from the spec: the remote template store, an external service
that is no part of the sources. Its state is the list of stored templates.
`listTemplates` returns the name of every stored template, `getTemplate`
returns the stored record or fails with `NotFoundError`, `createTemplate`
adds the record or fails with `AlreadyExistsError`, `updateTemplate` replaces
the whole record or fails with `NotFoundError`. No other writer changes the
state between two calls. -/
def modelClient : SESClient (List Template) where
  listTemplates := fun _ store =>
    (.ok ⟨store.map (fun t => ⟨some t.TemplateName⟩), none⟩, store)
  getTemplate := fun name store =>
    match store.find? (fun t => decide (t.TemplateName = name)) with
    | some t => (.ok ⟨some t⟩, store)
    | none => (.error (notFoundError name), store)
  createTemplate := fun t store =>
    if store.any (fun u => decide (u.TemplateName = t.TemplateName)) then
      (.error (alreadyExistsError t.TemplateName), store)
    else (.ok (), store ++ [t])
  updateTemplate := fun t store =>
    if store.any (fun u => decide (u.TemplateName = t.TemplateName)) then
      (.ok (), store.map (fun u => if u.TemplateName = t.TemplateName then t else u))
    else (.error (notFoundError t.TemplateName), store)

/-- A store that answers `ListTemplates` one page at a time: a response holds
the first `pageSize` names and a continuation token when more remain. The other
commands are those of `modelClient`. -/
def pagedClient (pageSize : Nat) : SESClient (List Template) where
  listTemplates := fun _ store =>
    (.ok ⟨(store.take pageSize).map (fun t => ⟨some t.TemplateName⟩),
      if pageSize < store.length then some "page-2" else none⟩, store)
  getTemplate := modelClient.getTemplate
  createTemplate := modelClient.createTemplate
  updateTemplate := modelClient.updateTemplate

/-! ## Concrete worlds -/

/-- A rendering of a template, standing for `JSON.stringify` in the examples. -/
def demoStringify : Option Template → String
  | none => "undefined"
  | some t => "\x7b" ++ t.TemplateName ++ "|" ++ t.SubjectPart.getD "" ++ "|" ++
      t.TextPart.getD "" ++ "|" ++ t.HtmlPart.getD "" ++ "\x7d"

/-- A toy minifier for the examples: it drops blanks when asked to collapse
whitespace. -/
def demoMinify (html : String) (options : MinifyOptions) : Except JsError String :=
  if options.collapseWhitespace then .ok (String.mk (html.data.filter (fun c => c != ' ')))
  else .ok html

/-- A world in which every input is set and every file exists; its client is
`client`. -/
def demoWorld (client : SESClient (List Template)) : World (List Template) where
  getInput := fun key =>
    if key = "sesRegion" then "us-east-1"
    else if key = "awsAccessKey" then "AKIAEXAMPLE"
    else if key = "awsSecretKey" then "secret"
    else if key = "templateName" then "Welcome"
    else if key = "subjectFilePath" then "subject.txt"
    else if key = "rawBodyFilePath" then "email.txt"
    else if key = "htmlBodyFilePath" then "email.html"
    else ""
  readFileSync := fun path =>
    if path = "subject.txt" then .ok "Hi"
    else if path = "email.txt" then .ok "Hello"
    else if path = "email.html" then .ok "<p> Hi </p>"
    else .error ⟨"Error", "ENOENT: no such file or directory, open " ++ path⟩
  MINIFY := demoMinify
  stringify := demoStringify
  newSESClient := fun _ => client

/-- The world `w` with the input `key` left unset. -/
def World.without {σ : Type} (w : World σ) (key : String) : World σ :=
  { w with getInput := fun k => if k = key then "" else w.getInput k }

/-- The template the demo world asks for. -/
def welcome : Template :=
  { TemplateName := "Welcome", HtmlPart := some "<p>Hi</p>", SubjectPart := some "Hi",
    TextPart := some "Hello" }

/-- An older record stored under the name `Welcome`. -/
def oldWelcome : Template :=
  { TemplateName := "Welcome", HtmlPart := none, SubjectPart := some "Old", TextPart := none }

/-- Another stored template. -/
def goodbye : Template :=
  { TemplateName := "Goodbye", HtmlPart := none, SubjectPart := some "Bye", TextPart := none }

/-! ## Lemmas -/

section
variable {σ α β : Type}

theorem findIndex_nonneg (p : α → Bool) (l : List α) : findIndex p l = -1 ∨ 0 ≤ findIndex p l := by
  induction l with
  | nil => simp [findIndex]
  | cons x xs ih =>
    simp only [findIndex]
    split_ifs <;> omega

theorem findIndex_eq_neg_one_iff (p : α → Bool) (l : List α) :
    findIndex p l = -1 ↔ ∀ x ∈ l, p x = false := by
  induction l with
  | nil => simp [findIndex]
  | cons x xs ih =>
    have := findIndex_nonneg p xs
    simp only [findIndex, List.mem_cons, forall_eq_or_imp]
    split_ifs with h1 h2
    · simp [h1]
    · simp [h1, ← ih, h2]
    · simp only [h1, ← ih, h2, and_false, iff_false]; simp; omega

theorem findIndex_name (lst : ListTemplatesOutput) (n : String) :
    findIndex (fun template => decide (template.Name = some n)) lst.TemplatesMetadata = -1 ↔
      ¬ Listed lst n := by
  rw [findIndex_eq_neg_one_iff]
  simp [Listed]

theorem reconcile_outcome (w : World σ) (client : SESClient σ) (n sj tx hm : String) (s : σ) :
    ReconcileOutcome w client n sj tx hm s (updateTemplateOnAwsSes w client n sj tx hm s) := by
  rcases hL : client.listTemplates ListTemplatesInput.empty s with ⟨e | lst, s1⟩
  · simp only [updateTemplateOnAwsSes, bind, Prog.bind, send, hL]
    exact .listFails e s1 hL
  · by_cases hf : Listed lst n
    · have hi := (findIndex_name lst n).not.mpr (not_not.mpr hf)
      rcases hG : client.getTemplate n s1 with ⟨e | g, s2⟩
      · simp only [updateTemplateOnAwsSes, getTemplateFromAwsSes, bind, Prog.bind, send, hL, hi,
          hG, if_false, List.singleton_append]
        exact .fetchFails lst s1 e s2 hL hf hG
      · rcases hU : client.updateTemplate (payload n sj tx hm) s2 with ⟨e | u, s3⟩
        · have hU2 := hU
          simp only [payload] at hU2
          simp only [updateTemplateOnAwsSes, getTemplateFromAwsSes, bind, Prog.bind, send, hL, hi,
            hG, hU2, if_false, pure, Prog.pure, CORE.info, emit, List.append_nil,
            List.singleton_append, List.cons_append, List.nil_append]
          exact .updateFails lst s1 g s2 e s3 hL hf hG hU
        · have hU2 := hU
          simp only [payload] at hU2
          simp only [updateTemplateOnAwsSes, getTemplateFromAwsSes, bind, Prog.bind, send, hL, hi,
            hG, hU2, if_false, pure, Prog.pure, CORE.info, emit, List.append_nil,
            List.singleton_append, List.cons_append, List.nil_append]
          exact .updated lst s1 g s2 s3 hL hf hG hU
    · have hi := (findIndex_name lst n).mpr hf
      rcases hC : client.createTemplate (payload n sj tx hm) s1 with ⟨e | u, s2⟩
      · have hC2 := hC
        simp only [payload] at hC2
        simp only [updateTemplateOnAwsSes, bind, Prog.bind, send, hL, hi, hC2, if_true,
          List.singleton_append]
        exact .createFails lst s1 e s2 hL hf hC
      · have hC2 := hC
        simp only [payload] at hC2
        simp only [updateTemplateOnAwsSes, bind, Prog.bind, send, hL, hi, hC2, if_true,
          List.singleton_append]
        exact .created lst s1 s2 hL hf hC

theorem getInputValue_empty (w : World σ) (key : String) (s : σ) (h : w.getInput key = "") :
    getGithubActionInputValue w key s = ⟨[], .error (invalidInput key), s⟩ := by
  simp [getGithubActionInputValue, SIMULATING_ON_LOCAL, h, throwJs, invalidInput, newError]

theorem getInputValue_set (w : World σ) (key : String) (s : σ) (h : w.getInput key ≠ "") :
    getGithubActionInputValue w key s = ⟨[], .ok (w.getInput key), s⟩ := by
  simp [getGithubActionInputValue, SIMULATING_ON_LOCAL, h, pure, Prog.pure]

theorem getFileContents_eq (w : World σ) (path : String) (s : σ) :
    getFileContents w path s = ⟨[Event.readFile path], w.readFileSync path, s⟩ := by
  simp only [getFileContents, bind, Prog.bind, emit, call, List.singleton_append, List.append_nil]

theorem inputs_cases (w : World σ) :
    (∃ l e, InputsFail w l e) ∨ (∃ n cs ct h, InputsOk w n cs ct h) := by
  by_cases h1 : w.getInput "templateName" = ""
  · exact .inl ⟨_, _, .noName h1⟩
  by_cases h2 : w.getInput "subjectFilePath" = ""
  · exact .inl ⟨_, _, .noSubjectPath h1 h2⟩
  rcases h3 : w.readFileSync (w.getInput "subjectFilePath") with e | cs
  · exact .inl ⟨_, _, .subjectUnread e h1 h2 h3⟩
  by_cases h4 : w.getInput "rawBodyFilePath" = ""
  · exact .inl ⟨_, _, .noRawPath cs h1 h2 h3 h4⟩
  rcases h5 : w.readFileSync (w.getInput "rawBodyFilePath") with e | ct
  · exact .inl ⟨_, _, .rawUnread cs e h1 h2 h3 h4 h5⟩
  by_cases h6 : w.getInput "htmlBodyFilePath" = ""
  · exact .inl ⟨_, _, .noHtmlPath cs ct h1 h2 h3 h4 h5 h6⟩
  rcases h7 : w.readFileSync (w.getInput "htmlBodyFilePath") with e | c
  · exact .inl ⟨_, _, .htmlUnread cs ct e h1 h2 h3 h4 h5 h6 h7⟩
  rcases h8 : w.MINIFY c ⟨true, true, true⟩ with e | h
  · exact .inl ⟨_, _, .minifyThrows cs ct c e h1 h2 h3 h4 h5 h6 h7 h8⟩
  · exact .inr ⟨_, cs, ct, h, ⟨rfl, h1, h2, h3, h4, h5, h6, c, h7, h8⟩⟩

theorem run_of_inputsFail (w : World σ) (client : SESClient σ) (s : σ) {l : List Event}
    {e : JsError} (h : InputsFail w l e) : run w client s = ⟨l, .error e, s⟩ := by
  cases h <;>
    simp_all [run, bind, Prog.bind, getInputValue_empty, getInputValue_set, getFileContents_eq,
      call, inputReads]

theorem run_outcome (w : World σ) (client : SESClient σ) (s : σ) :
    RunOutcome w client s (run w client s) := by
  rcases inputs_cases w with ⟨l, e, h⟩ | ⟨n, cs, ct, h, hin⟩
  · rw [run_of_inputsFail w client s h]
    exact .inputs l e h
  · have h0 := hin.name
    subst h0
    have hr := reconcile_outcome w client (w.getInput "templateName") cs ct h s
    obtain ⟨c, hc, hm⟩ := hin.html
    have h1 := hin.name_ne
    have h2 := hin.subject_ne
    have h3 := hin.raw_ne
    have h4 := hin.html_ne
    have h5 := hin.subject
    have h6 := hin.raw
    rcases hu : updateTemplateOnAwsSes w client (w.getInput "templateName") cs ct h s with ⟨l, e | u, s1⟩
    · have : run w client s = ⟨inputReads w ++ l, .error e, s1⟩ := by
        simp [run, bind, Prog.bind, getInputValue_set, getFileContents_eq, call, inputReads,
          h1, h2, h3, h4, h5, h6, hc, hm, hu]
      rw [this]
      rw [hu] at hr
      exact .reconcile _ cs ct h ⟨l, .error e, s1⟩ e hin hr rfl
    · rw [hu] at hr
      rcases hg : client.getTemplate (w.getInput "templateName") s1 with ⟨e | g, s2⟩
      · have : run w client s =
            ⟨inputReads w ++ (l ++ [Event.send (Command.GetTemplate (w.getInput "templateName")) (some e)]),
            .error e, s2⟩ := by
          simp [run, bind, Prog.bind, getInputValue_set, getFileContents_eq, call, inputReads,
            h1, h2, h3, h4, h5, h6, hc, hm, hu, getTemplateFromAwsSes, send, hg]
        rw [this]
        exact .afterFails _ cs ct h ⟨l, .ok (), s1⟩ e s2 hin hr rfl hg
      · have : run w client s =
            ⟨inputReads w ++ (l ++ [Event.send (Command.GetTemplate (w.getInput "templateName")) none,
              Event.info ("Template on AWS SES after updating: " ++ w.stringify g.Template)]),
              .ok (), s2⟩ := by
          simp [run, bind, Prog.bind, getInputValue_set, getFileContents_eq, call, inputReads,
            h1, h2, h3, h4, h5, h6, hc, hm, hu, getTemplateFromAwsSes, send, hg, pure,
            Prog.pure, CORE.info, emit]
        rw [this]
        exact .done _ cs ct h ⟨l, .ok (), s1⟩ g s2 hin hr rfl hg

theorem script_outcome (w : World σ) (s : σ) : ScriptOutcome w s (script w s) := by
  by_cases h1 : w.getInput "sesRegion" = ""
  · have : script w s = ⟨[], .error (invalidInput "sesRegion"), s⟩ := by
      simp [script, SES_CLIENT, SIMULATING_ON_LOCAL, bind, Prog.bind, getInputValue_empty, h1]
    rw [this]; exact .noRegion h1
  by_cases h2 : w.getInput "awsAccessKey" = ""
  · have : script w s = ⟨[], .error (invalidInput "awsAccessKey"), s⟩ := by
      simp [script, SES_CLIENT, SIMULATING_ON_LOCAL, bind, Prog.bind, getInputValue_empty,
        getInputValue_set, h1, h2]
    rw [this]; exact .noAccessKey h1 h2
  by_cases h3 : w.getInput "awsSecretKey" = ""
  · have : script w s = ⟨[], .error (invalidInput "awsSecretKey"), s⟩ := by
      simp [script, SES_CLIENT, SIMULATING_ON_LOCAL, bind, Prog.bind, getInputValue_empty,
        getInputValue_set, h1, h2, h3]
    rw [this]; exact .noSecretKey h1 h2 h3
  have hr := run_outcome w (clientOf w) s
  rcases hu : run w (clientOf w) s with ⟨l, e | u, s1⟩
  · have : script w s = ⟨l ++ [Event.setFailed e.message], .error e, s1⟩ := by
      simp only [clientOf] at hu
      simp [script, SES_CLIENT, SIMULATING_ON_LOCAL, bind, Prog.bind, getInputValue_set, h1, h2,
        h3, pure, Prog.pure, Prog.catch, hu, CORE.setFailed, emit, throwJs]
    rw [this]
    rw [hu] at hr
    exact .rejected ⟨l, .error e, s1⟩ e h1 h2 h3 hr rfl
  · have : script w s = ⟨l, .ok (), s1⟩ := by
      simp only [clientOf] at hu
      simp [script, SES_CLIENT, SIMULATING_ON_LOCAL, bind, Prog.bind, getInputValue_set, h1, h2,
        h3, pure, Prog.pure, Prog.catch, hu]
    rw [this]
    rw [hu] at hr
    exact .fulfilled ⟨l, .ok (), s1⟩ h1 h2 h3 hr rfl

@[simp] theorem commands_append (l₁ l₂ : List Event) :
    commands (l₁ ++ l₂) = commands l₁ ++ commands l₂ := by
  induction l₁ with
  | nil => rfl
  | cons ev l ih => cases ev <;> simp [commands, ih]

@[simp] theorem sends_append (l₁ l₂ : List Event) : sends (l₁ ++ l₂) = sends l₁ ++ sends l₂ := by
  induction l₁ with
  | nil => rfl
  | cons ev l ih => cases ev <;> simp [sends, ih]

@[simp] theorem infos_append (l₁ l₂ : List Event) : infos (l₁ ++ l₂) = infos l₁ ++ infos l₂ := by
  induction l₁ with
  | nil => rfl
  | cons ev l ih => cases ev <;> simp [infos, ih]

@[simp] theorem fileReads_append (l₁ l₂ : List Event) :
    fileReads (l₁ ++ l₂) = fileReads l₁ ++ fileReads l₂ := by
  induction l₁ with
  | nil => rfl
  | cons ev l ih => cases ev <;> simp [fileReads, ih]

@[simp] theorem failedWith_append (l₁ l₂ : List Event) :
    failedWith (l₁ ++ l₂) = failedWith l₁ ++ failedWith l₂ := by
  induction l₁ with
  | nil => rfl
  | cons ev l ih => cases ev <;> simp [failedWith, ih]

theorem inputsFail_quiet (w : World σ) {l : List Event} {e : JsError} (h : InputsFail w l e) :
    commands l = [] ∧ sends l = [] ∧ infos l = [] ∧ failedWith l = [] ∧
      ∀ c f, Event.send c f ∉ l := by
  cases h <;> simp [inputReads, commands, sends, infos, failedWith]

theorem inputReads_quiet (w : World σ) :
    commands (inputReads w) = [] ∧ sends (inputReads w) = [] ∧ infos (inputReads w) = [] ∧
      failedWith (inputReads w) = [] ∧ ∀ c f, Event.send c f ∉ inputReads w := by
  simp [inputReads, commands, sends, infos, failedWith]

/-- C1: in a run that reaches the store and in which every remote call
succeeds, the calls are exactly `ListTemplates, CreateTemplate, GetTemplate`
when the listing has no entry for the template name, and exactly
`ListTemplates, GetTemplate, UpdateTemplate, GetTemplate` when it has one; in
both cases at most four calls are made. -/
theorem run_branch_correctness (w : World σ) (client : SESClient σ) (s : σ)
    (hreach : commands (run w client s).log ≠ [])
    (hsucc : ∀ p ∈ sends (run w client s).log, p.2 = none) :
    ∃ lst s1 T, client.listTemplates ListTemplatesInput.empty s = (.ok lst, s1) ∧
      T.TemplateName = w.getInput "templateName" ∧
      (¬ Listed lst (w.getInput "templateName") →
        commands (run w client s).log =
          [Command.ListTemplates ListTemplatesInput.empty, Command.CreateTemplate T,
            Command.GetTemplate (w.getInput "templateName")]) ∧
      (Listed lst (w.getInput "templateName") →
        commands (run w client s).log =
          [Command.ListTemplates ListTemplatesInput.empty,
            Command.GetTemplate (w.getInput "templateName"), Command.UpdateTemplate T,
            Command.GetTemplate (w.getInput "templateName")]) ∧
      (commands (run w client s).log).length ≤ 4 := by
  have h := run_outcome w client s
  revert hreach hsucc
  generalize run w client s = r at h
  intro hreach hsucc
  have hq := inputReads_quiet w
  cases h with
  | inputs l e hl => exact absurd (inputsFail_quiet w hl).1 hreach
  | reconcile n cs ct hm r e hin hr he =>
    exfalso
    cases hr <;> simp [hq, sends] at hsucc he
  | afterFails n cs ct hm r e s1 hin hr hok hg =>
    exfalso
    have := hsucc (Command.GetTemplate n, some e) (by simp [hq, sends])
    simp at this
  | done n cs ct hm r g s1 hin hr hok hg =>
    have hn := hin.name
    subst hn
    cases hr with
    | listFails e s1 h1 => simp at hok
    | createFails lst s1 e s2 h1 h2 h3 => simp at hok
    | fetchFails lst s1 e s2 h1 h2 h3 => simp at hok
    | updateFails lst s1 g s2 e s3 h1 h2 h3 h4 => simp at hok
    | created lst s1 s2 h1 h2 h3 =>
      exact ⟨lst, s1, payload _ cs ct hm, h1, rfl, by simp [hq, commands], fun h => absurd h h2,
        by simp [hq, commands]⟩
    | updated lst s1 g s2 s3 h1 h2 h3 h4 =>
      exact ⟨lst, s1, payload _ cs ct hm, h1, rfl, fun h => absurd h2 h, by simp [hq, commands],
        by simp [hq, commands]⟩

theorem run_branch_correctness_witness :
    commands (run (demoWorld modelClient) modelClient [oldWelcome]).log ≠ [] ∧
    (∀ p ∈ sends (run (demoWorld modelClient) modelClient [oldWelcome]).log, p.2 = none) ∧
    ∃ lst s1 T,
      modelClient.listTemplates ListTemplatesInput.empty [oldWelcome] = (.ok lst, s1) ∧
      T.TemplateName = "Welcome" ∧
      (¬ Listed lst "Welcome" →
        commands (run (demoWorld modelClient) modelClient [oldWelcome]).log =
          [Command.ListTemplates ListTemplatesInput.empty, Command.CreateTemplate T,
            Command.GetTemplate "Welcome"]) ∧
      (Listed lst "Welcome" →
        commands (run (demoWorld modelClient) modelClient [oldWelcome]).log =
          [Command.ListTemplates ListTemplatesInput.empty, Command.GetTemplate "Welcome",
            Command.UpdateTemplate T, Command.GetTemplate "Welcome"]) ∧
      (commands (run (demoWorld modelClient) modelClient [oldWelcome]).log).length ≤ 4 :=
  ⟨by decide, by decide,
    run_branch_correctness (demoWorld modelClient) modelClient [oldWelcome] (by decide)
      (by decide)⟩

/-- C6: when the remote call at position `k` of a run fails with `e`, `run`
rejects with that same `e` and that call is the last one sent; the calls of any
run are an initial segment of one of the two success sequences, so none is
repeated and none is added; and when `CreateTemplate` fails the calls are
exactly `ListTemplates, CreateTemplate` and nothing is logged. -/
theorem run_failure_propagation (w : World σ) (client : SESClient σ) (s : σ) :
    (∀ k c e, (sends (run w client s).log)[k]? = some (c, some e) →
      (run w client s).out = .error e ∧ (sends (run w client s).log).length = k + 1) ∧
    (∃ T,
      commands (run w client s).log <+:
        [Command.ListTemplates ListTemplatesInput.empty, Command.CreateTemplate T,
          Command.GetTemplate (w.getInput "templateName")] ∨
      commands (run w client s).log <+:
        [Command.ListTemplates ListTemplatesInput.empty,
          Command.GetTemplate (w.getInput "templateName"), Command.UpdateTemplate T,
          Command.GetTemplate (w.getInput "templateName")]) ∧
    (∀ T e, Event.send (Command.CreateTemplate T) (some e) ∈ (run w client s).log →
      commands (run w client s).log =
        [Command.ListTemplates ListTemplatesInput.empty, Command.CreateTemplate T] ∧
      infos (run w client s).log = [] ∧ (run w client s).out = .error e) := by
  have h := run_outcome w client s
  generalize run w client s = r at h
  have hq := inputReads_quiet w
  cases h with
  | inputs l e hl =>
    have hl' := inputsFail_quiet w hl
    refine ⟨?_, ⟨payload "" "" "" "", .inl ?_⟩, ?_⟩
    · simp [hl']
    · simp [hl']
    · intro T e h; exact absurd h (hl'.2.2.2.2 _ _)
  | reconcile n cs ct hm r e hin hr he =>
    have hn := hin.name
    subst hn
    refine ⟨?_, ⟨payload (w.getInput "templateName") cs ct hm, ?_⟩, ?_⟩
    · intro k c e'
      cases hr <;> rcases k with _ | _ | _ | _ | k <;> simp_all [sends]
    · cases hr <;> simp_all [commands]
    · intro T e'
      cases hr <;> simp_all [commands, infos, inputReads]
  | afterFails n cs ct hm r e s1 hin hr hok hg =>
    have hn := hin.name
    subst hn
    refine ⟨?_, ⟨payload (w.getInput "templateName") cs ct hm, ?_⟩, ?_⟩
    · intro k c e'
      cases hr <;> rcases k with _ | _ | _ | _ | k <;> simp_all [sends]
    · cases hr <;> simp_all [commands]
    · intro T e'
      cases hr <;> simp_all [commands, infos, inputReads]
  | done n cs ct hm r g s1 hin hr hok hg =>
    have hn := hin.name
    subst hn
    refine ⟨?_, ⟨payload (w.getInput "templateName") cs ct hm, ?_⟩, ?_⟩
    · intro k c e'
      cases hr <;> rcases k with _ | _ | _ | _ | k <;> simp_all [sends]
    · cases hr <;> simp_all [commands]
    · intro T e'
      cases hr <;> simp_all [commands, infos, inputReads]

/-- C10: `updateTemplateOnAwsSes` sends exactly one `ListTemplatesCommand`,
first and with the empty input, whatever the response holds; the branch is
decided by that one response: the pre-fetch and the update go out only when an
entry of the response has exactly the name, and otherwise `CreateTemplate` goes
out, also for a template the store holds but the response omits. -/
theorem single_listing_decides (w : World σ) (client : SESClient σ) (n sj tx hm : String)
    (s : σ) :
    (commands (updateTemplateOnAwsSes w client n sj tx hm s).log).filter
        Command.isListTemplates = [Command.ListTemplates ⟨none, none⟩] ∧
    (commands (updateTemplateOnAwsSes w client n sj tx hm s).log).head? =
        some (Command.ListTemplates ⟨none, none⟩) ∧
    ∀ lst s1, client.listTemplates ⟨none, none⟩ s = (.ok lst, s1) →
      ((commands (updateTemplateOnAwsSes w client n sj tx hm s).log)[1]? =
          some (Command.GetTemplate n) ↔ ∃ m ∈ lst.TemplatesMetadata, m.Name = some n) ∧
      ((commands (updateTemplateOnAwsSes w client n sj tx hm s).log)[1]? =
          some (Command.CreateTemplate
            { TemplateName := n, HtmlPart := some hm, SubjectPart := some sj,
              TextPart := some tx }) ↔
        ¬ ∃ m ∈ lst.TemplatesMetadata, m.Name = some n) ∧
      (∀ T, Command.UpdateTemplate T ∈ commands (updateTemplateOnAwsSes w client n sj tx hm s).log →
        ∃ m ∈ lst.TemplatesMetadata, m.Name = some n) := by
  have h := reconcile_outcome w client n sj tx hm s
  generalize updateTemplateOnAwsSes w client n sj tx hm s = r at h
  refine ⟨?_, ?_, ?_⟩
  · cases h <;> simp [commands, Command.isListTemplates, ListTemplatesInput.empty]
  · cases h <;> simp [commands, ListTemplatesInput.empty]
  · intro lst s1 hl
    cases h <;>
      simp_all [commands, ListTemplatesInput.empty, Listed, payload]

theorem single_listing_decides_witness :
    (pagedClient 1).listTemplates ⟨none, none⟩ [goodbye, oldWelcome] =
        (.ok ⟨[⟨some "Goodbye"⟩], some "page-2"⟩, [goodbye, oldWelcome]) ∧
    (¬ ∃ m ∈ [(⟨some "Goodbye"⟩ : TemplateMetadata)], m.Name = some "Welcome") ∧
    (commands (updateTemplateOnAwsSes (demoWorld (pagedClient 1)) (pagedClient 1) "Welcome" "Hi"
        "Hello" "<p>Hi</p>" [goodbye, oldWelcome]).log)[1]? =
      some (Command.CreateTemplate welcome) :=
  ⟨rfl, by decide,
    ((single_listing_decides (demoWorld (pagedClient 1)) (pagedClient 1) "Welcome" "Hi" "Hello"
      "<p>Hi</p>" [goodbye, oldWelcome]).2.2 ⟨[⟨some "Goodbye"⟩], some "page-2"⟩
      [goodbye, oldWelcome] rfl).2.1.mpr (by decide)⟩

theorem run_failure_propagation_witness :
    (sends (run (demoWorld (pagedClient 1)) (pagedClient 1) [goodbye, oldWelcome]).log)[1]? =
        some (Command.CreateTemplate welcome, some (alreadyExistsError "Welcome")) ∧
    ((run (demoWorld (pagedClient 1)) (pagedClient 1) [goodbye, oldWelcome]).out =
        .error (alreadyExistsError "Welcome") ∧
      (sends (run (demoWorld (pagedClient 1)) (pagedClient 1) [goodbye, oldWelcome]).log).length =
        1 + 1) ∧
    Event.send (Command.CreateTemplate welcome) (some (alreadyExistsError "Welcome")) ∈
        (run (demoWorld (pagedClient 1)) (pagedClient 1) [goodbye, oldWelcome]).log ∧
    commands (run (demoWorld (pagedClient 1)) (pagedClient 1) [goodbye, oldWelcome]).log =
        [Command.ListTemplates ListTemplatesInput.empty, Command.CreateTemplate welcome] ∧
    infos (run (demoWorld (pagedClient 1)) (pagedClient 1) [goodbye, oldWelcome]).log = [] ∧
    (run (demoWorld (pagedClient 1)) (pagedClient 1) [goodbye, oldWelcome]).out =
        .error (alreadyExistsError "Welcome") :=
  ⟨by decide,
    (run_failure_propagation (demoWorld (pagedClient 1)) (pagedClient 1)
      [goodbye, oldWelcome]).1 1 (Command.CreateTemplate welcome) (alreadyExistsError "Welcome")
      (by decide),
    by decide,
    (run_failure_propagation (demoWorld (pagedClient 1)) (pagedClient 1)
      [goodbye, oldWelcome]).2.2 welcome (alreadyExistsError "Welcome") (by decide)⟩

/-- C9: a template sent to `CreateTemplate` or `UpdateTemplate` carries the
`templateName` input as its name, the untouched contents of the subject file
and of the text file, and the result of `MINIFY` on the contents of the HTML
file with the options `collapseWhitespace`, `minifyCSS` and `minifyJS` all
true; the same in both branches. -/
theorem run_payload (w : World σ) (client : SESClient σ) (s : σ) (T : Template)
    (f : Option JsError)
    (h : Event.send (Command.CreateTemplate T) f ∈ (run w client s).log ∨
      Event.send (Command.UpdateTemplate T) f ∈ (run w client s).log) :
    ∃ subject text html minified,
      w.readFileSync (w.getInput "subjectFilePath") = .ok subject ∧
      w.readFileSync (w.getInput "rawBodyFilePath") = .ok text ∧
      w.readFileSync (w.getInput "htmlBodyFilePath") = .ok html ∧
      w.MINIFY html { collapseWhitespace := true, minifyCSS := true, minifyJS := true } =
        .ok minified ∧
      T = { TemplateName := w.getInput "templateName", HtmlPart := some minified,
            SubjectPart := some subject, TextPart := some text } := by
  have ho := run_outcome w client s
  revert h
  generalize run w client s = r at ho
  intro h
  have hq := (inputReads_quiet w).2.2.2.2
  have key : ∀ n cs ct hm, InputsOk w n cs ct hm → T = payload n cs ct hm →
      ∃ subject text html minified,
        w.readFileSync (w.getInput "subjectFilePath") = .ok subject ∧
        w.readFileSync (w.getInput "rawBodyFilePath") = .ok text ∧
        w.readFileSync (w.getInput "htmlBodyFilePath") = .ok html ∧
        w.MINIFY html { collapseWhitespace := true, minifyCSS := true, minifyJS := true } =
          .ok minified ∧
        T = { TemplateName := w.getInput "templateName", HtmlPart := some minified,
              SubjectPart := some subject, TextPart := some text } := by
    intro n cs ct hm hin hT
    obtain ⟨c, hc, hmin⟩ := hin.html
    exact ⟨cs, ct, c, hm, hin.subject, hin.raw, hc, hmin, by rw [hT, payload, hin.name]⟩
  cases ho with
  | inputs l e hl =>
    have := (inputsFail_quiet w hl).2.2.2.2
    rcases h with h | h <;> exact absurd h (this _ _)
  | reconcile n cs ct hm r e hin hr he =>
    apply key n cs ct hm hin
    cases hr <;> simp_all
  | afterFails n cs ct hm r e s1 hin hr hok hg =>
    apply key n cs ct hm hin
    cases hr <;> simp_all
  | done n cs ct hm r g s1 hin hr hok hg =>
    apply key n cs ct hm hin
    cases hr <;> simp_all

theorem run_payload_witness :
    (Event.send (Command.CreateTemplate welcome) none ∈
        (run (demoWorld modelClient) modelClient []).log ∨
      Event.send (Command.UpdateTemplate welcome) none ∈
        (run (demoWorld modelClient) modelClient []).log) ∧
    ∃ subject text html minified,
      (demoWorld modelClient).readFileSync ((demoWorld modelClient).getInput "subjectFilePath") =
        .ok subject ∧
      (demoWorld modelClient).readFileSync ((demoWorld modelClient).getInput "rawBodyFilePath") =
        .ok text ∧
      (demoWorld modelClient).readFileSync ((demoWorld modelClient).getInput "htmlBodyFilePath") =
        .ok html ∧
      (demoWorld modelClient).MINIFY html
        { collapseWhitespace := true, minifyCSS := true, minifyJS := true } = .ok minified ∧
      welcome = { TemplateName := (demoWorld modelClient).getInput "templateName",
                  HtmlPart := some minified, SubjectPart := some subject,
                  TextPart := some text } :=
  ⟨by decide, run_payload (demoWorld modelClient) modelClient [] welcome none (by decide)⟩

theorem inputsOk_not_fail (w : World σ) {n cs ct hm : String} {l : List Event} {e : JsError}
    (hin : InputsOk w n cs ct hm) (hf : InputsFail w l e) : False := by
  obtain ⟨c, hc, hmin⟩ := hin.html
  have h1 := hin.name_ne
  have h2 := hin.subject_ne
  have h3 := hin.subject
  have h4 := hin.raw_ne
  have h5 := hin.raw
  have h6 := hin.html_ne
  cases hf <;> simp_all

/-- C8: a successful run logs, as its last event, one line `Template on AWS
SES after updating: ` followed by the serialization of the template the final
`GetTemplate` returned; it logs one line `Template on AWS SES before updating: `
followed by the serialization of the template the pre-fetch returned exactly
when the listing has the name, and does so before `UpdateTemplate` is sent; on
the create path it logs no such line. -/
theorem successful_run_log (w : World σ) (s : σ) (hok : (script w s).out = .ok ()) :
    ∃ lst s1 T, (clientOf w).listTemplates ListTemplatesInput.empty s = (.ok lst, s1) ∧
      ((Listed lst (w.getInput "templateName") ∧ ∃ g1 s2 s3 g2 s4,
          (clientOf w).getTemplate (w.getInput "templateName") s1 = (.ok g1, s2) ∧
          (clientOf w).updateTemplate T s2 = (.ok (), s3) ∧
          (clientOf w).getTemplate (w.getInput "templateName") s3 = (.ok g2, s4) ∧
          (script w s).log = inputReads w ++
            [Event.send (Command.ListTemplates ListTemplatesInput.empty) none,
              Event.send (Command.GetTemplate (w.getInput "templateName")) none,
              Event.info ("Template on AWS SES before updating: " ++ w.stringify g1.Template),
              Event.send (Command.UpdateTemplate T) none,
              Event.send (Command.GetTemplate (w.getInput "templateName")) none,
              Event.info ("Template on AWS SES after updating: " ++ w.stringify g2.Template)] ∧
          infos (script w s).log =
            ["Template on AWS SES before updating: " ++ w.stringify g1.Template,
              "Template on AWS SES after updating: " ++ w.stringify g2.Template]) ∨
        (¬ Listed lst (w.getInput "templateName") ∧ ∃ s2 g2 s3,
          (clientOf w).createTemplate T s1 = (.ok (), s2) ∧
          (clientOf w).getTemplate (w.getInput "templateName") s2 = (.ok g2, s3) ∧
          (script w s).log = inputReads w ++
            [Event.send (Command.ListTemplates ListTemplatesInput.empty) none,
              Event.send (Command.CreateTemplate T) none,
              Event.send (Command.GetTemplate (w.getInput "templateName")) none,
              Event.info ("Template on AWS SES after updating: " ++ w.stringify g2.Template)] ∧
          infos (script w s).log =
            ["Template on AWS SES after updating: " ++ w.stringify g2.Template])) := by
  have h := script_outcome w s
  revert hok
  generalize script w s = r at h
  intro hok
  have hq := inputReads_quiet w
  cases h with
  | noRegion h1 => simp at hok
  | noAccessKey h1 h2 => simp at hok
  | noSecretKey h1 h2 h3 => simp at hok
  | rejected r e h1 h2 h3 hr he => simp at hok
  | fulfilled r h1 h2 h3 hr he =>
    cases hr with
    | inputs l e hl => simp at hok
    | reconcile n cs ct hm r e hin hr he => simp at hok
    | afterFails n cs ct hm r e s1 hin hr hok hg => simp at hok
    | done n cs ct hm r g s1 hin hr hok' hg =>
      have hn := hin.name
      subst hn
      cases hr with
      | listFails e s1 h1 => simp at hok'
      | createFails lst s1 e s2 h1 h2 h3 => simp at hok'
      | fetchFails lst s1 e s2 h1 h2 h3 => simp at hok'
      | updateFails lst s1 g s2 e s3 h1 h2 h3 h4 => simp at hok'
      | created lst t1 t2 k1 k2 k3 =>
        exact ⟨lst, t1, payload _ cs ct hm, k1, .inr ⟨k2, t2, g, s1, k3, hg, by simp,
          by simp [hq, infos]⟩⟩
      | updated lst t1 g1 t2 t3 k1 k2 k3 k4 =>
        exact ⟨lst, t1, payload _ cs ct hm, k1, .inl ⟨k2, g1, t2, t3, g, s1, k3, k4, hg, by simp,
          by simp [hq, infos]⟩⟩

theorem successful_run_log_witness :
    (script (demoWorld modelClient) [oldWelcome]).out = .ok () ∧
    (script (demoWorld modelClient) [oldWelcome]).log.getLast? =
      some (Event.info
        "Template on AWS SES after updating: \x7bWelcome|Hi|Hello|<p>Hi</p>\x7d") ∧
    infos (script (demoWorld modelClient) [oldWelcome]).log =
      ["Template on AWS SES before updating: \x7bWelcome|Old||\x7d",
        "Template on AWS SES after updating: \x7bWelcome|Hi|Hello|<p>Hi</p>\x7d"] ∧
    ∃ lst s1 T,
      (clientOf (demoWorld modelClient)).listTemplates ListTemplatesInput.empty [oldWelcome] =
        (.ok lst, s1) ∧
      ((Listed lst "Welcome" ∧ ∃ g1 s2 s3 g2 s4,
          (clientOf (demoWorld modelClient)).getTemplate "Welcome" s1 = (.ok g1, s2) ∧
          (clientOf (demoWorld modelClient)).updateTemplate T s2 = (.ok (), s3) ∧
          (clientOf (demoWorld modelClient)).getTemplate "Welcome" s3 = (.ok g2, s4) ∧
          (script (demoWorld modelClient) [oldWelcome]).log = inputReads (demoWorld modelClient) ++
            [Event.send (Command.ListTemplates ListTemplatesInput.empty) none,
              Event.send (Command.GetTemplate "Welcome") none,
              Event.info ("Template on AWS SES before updating: " ++ demoStringify g1.Template),
              Event.send (Command.UpdateTemplate T) none,
              Event.send (Command.GetTemplate "Welcome") none,
              Event.info ("Template on AWS SES after updating: " ++ demoStringify g2.Template)] ∧
          infos (script (demoWorld modelClient) [oldWelcome]).log =
            ["Template on AWS SES before updating: " ++ demoStringify g1.Template,
              "Template on AWS SES after updating: " ++ demoStringify g2.Template]) ∨
        (¬ Listed lst "Welcome" ∧ ∃ s2 g2 s3,
          (clientOf (demoWorld modelClient)).createTemplate T s1 = (.ok (), s2) ∧
          (clientOf (demoWorld modelClient)).getTemplate "Welcome" s2 = (.ok g2, s3) ∧
          (script (demoWorld modelClient) [oldWelcome]).log = inputReads (demoWorld modelClient) ++
            [Event.send (Command.ListTemplates ListTemplatesInput.empty) none,
              Event.send (Command.CreateTemplate T) none,
              Event.send (Command.GetTemplate "Welcome") none,
              Event.info ("Template on AWS SES after updating: " ++ demoStringify g2.Template)] ∧
          infos (script (demoWorld modelClient) [oldWelcome]).log =
            ["Template on AWS SES after updating: " ++ demoStringify g2.Template])) :=
  ⟨by decide, by decide, by decide,
    successful_run_log (demoWorld modelClient) [oldWelcome] (by decide)⟩

/-- C5: `getGithubActionInputValue` throws exactly when the value obtained for
the key is the empty string, the error then reads `Invalid <key>: did you
forget to set it in your action config?`, and otherwise the value is returned
as it is; and when any of the seven required inputs is empty the script ends
on an error without having sent a remote call. -/
theorem config_validation (w : World σ) (s : σ) (key : String) :
    ((∃ e, (getGithubActionInputValue w key s).out = .error e) ↔ w.getInput key = "") ∧
    (w.getInput key = "" → (getGithubActionInputValue w key s).out =
      .error ⟨"Error", "Invalid " ++ key ++ ": did you forget to set it in your action config?"⟩) ∧
    (w.getInput key ≠ "" → (getGithubActionInputValue w key s).out = .ok (w.getInput key)) ∧
    ((∃ k ∈ requiredKeys, w.getInput k = "") →
      (∃ e, (script w s).out = .error e) ∧ commands (script w s).log = []) := by
  refine ⟨?_, ?_, ?_, ?_⟩
  · by_cases h : w.getInput key = ""
    · simp [getInputValue_empty w key s h, h]
    · simp [getInputValue_set w key s h, h]
  · intro h; rw [getInputValue_empty w key s h]; rfl
  · intro h; rw [getInputValue_set w key s h]
  · intro hk
    have h := script_outcome w s
    generalize script w s = r at h
    have hq := inputReads_quiet w
    have hno : ∀ n cs ct hm, w.getInput "sesRegion" ≠ "" → w.getInput "awsAccessKey" ≠ "" →
        w.getInput "awsSecretKey" ≠ "" → InputsOk w n cs ct hm → False := by
      intro n cs ct hm h1 h2 h3 hin
      have := hin.name_ne
      have := hin.subject_ne
      have := hin.raw_ne
      have := hin.html_ne
      simp [requiredKeys] at hk
      simp_all
    have hrun : ∀ r, w.getInput "sesRegion" ≠ "" → w.getInput "awsAccessKey" ≠ "" →
        w.getInput "awsSecretKey" ≠ "" → RunOutcome w (clientOf w) s r →
        (∃ e, r.out = .error e) ∧ commands r.log = [] := by
      intro r h1 h2 h3 hr
      cases hr with
      | inputs l e hl => exact ⟨⟨e, rfl⟩, (inputsFail_quiet w hl).1⟩
      | reconcile n cs ct hm r e hin hr he => exact (hno n cs ct hm h1 h2 h3 hin).elim
      | afterFails n cs ct hm r e s1 hin hr hok hg => exact (hno n cs ct hm h1 h2 h3 hin).elim
      | done n cs ct hm r g s1 hin hr hok hg => exact (hno n cs ct hm h1 h2 h3 hin).elim
    cases h with
    | noRegion h1 => exact ⟨⟨_, rfl⟩, rfl⟩
    | noAccessKey h1 h2 => exact ⟨⟨_, rfl⟩, rfl⟩
    | noSecretKey h1 h2 h3 => exact ⟨⟨_, rfl⟩, rfl⟩
    | rejected r e h1 h2 h3 hr he =>
      refine ⟨⟨e, rfl⟩, ?_⟩
      simp [(hrun r h1 h2 h3 hr).2, commands]
    | fulfilled r h1 h2 h3 hr he => exact hrun r h1 h2 h3 hr

theorem config_validation_witness :
    ((demoWorld modelClient).without "htmlBodyFilePath").getInput "htmlBodyFilePath" = "" ∧
    (getGithubActionInputValue ((demoWorld modelClient).without "htmlBodyFilePath")
      "htmlBodyFilePath" []).out =
      .error ⟨"Error",
        "Invalid htmlBodyFilePath: did you forget to set it in your action config?"⟩ ∧
    ((demoWorld modelClient).without "htmlBodyFilePath").getInput "templateName" ≠ "" ∧
    (getGithubActionInputValue ((demoWorld modelClient).without "htmlBodyFilePath")
      "templateName" []).out = .ok "Welcome" ∧
    (∃ k ∈ requiredKeys, ((demoWorld modelClient).without "htmlBodyFilePath").getInput k = "") ∧
    (∃ e, (script ((demoWorld modelClient).without "htmlBodyFilePath") []).out = .error e) ∧
    commands (script ((demoWorld modelClient).without "htmlBodyFilePath") []).log = [] :=
  ⟨by decide,
    (config_validation ((demoWorld modelClient).without "htmlBodyFilePath") []
      "htmlBodyFilePath").2.1 (by decide),
    by decide,
    (config_validation ((demoWorld modelClient).without "htmlBodyFilePath") []
      "templateName").2.2.1 (by decide),
    by decide,
    (config_validation ((demoWorld modelClient).without "htmlBodyFilePath") []
      "htmlBodyFilePath").2.2.2 (by decide)⟩

/-- C4, as the source has it: with exactly one required input missing no
remote call is sent; no file is read when the missing input is `sesRegion`,
`awsAccessKey`, `awsSecretKey`, `templateName` or `subjectFilePath`; the
subject file is read first when it is `rawBodyFilePath`, the subject file and
then the text file when it is `htmlBodyFilePath`; and when those reads succeed
the script ends on the error that names the missing input. -/
theorem missing_input_stops_before_store (w : World σ) (s : σ) (k : String)
    (hk : k ∈ requiredKeys) (hempty : w.getInput k = "")
    (hothers : ∀ k' ∈ requiredKeys, k' ≠ k → w.getInput k' ≠ "") :
    commands (script w s).log = [] ∧
    (k ≠ "rawBodyFilePath" → k ≠ "htmlBodyFilePath" →
      fileReads (script w s).log = [] ∧ (script w s).out = .error (invalidInput k)) ∧
    (k = "rawBodyFilePath" →
      fileReads (script w s).log = [w.getInput "subjectFilePath"] ∧
      (∀ c, w.readFileSync (w.getInput "subjectFilePath") = .ok c →
        (script w s).out = .error (invalidInput k))) ∧
    (k = "htmlBodyFilePath" →
      (fileReads (script w s).log = [w.getInput "subjectFilePath"] ∨
        fileReads (script w s).log =
          [w.getInput "subjectFilePath", w.getInput "rawBodyFilePath"]) ∧
      (∀ c₁ c₂, w.readFileSync (w.getInput "subjectFilePath") = .ok c₁ →
        w.readFileSync (w.getInput "rawBodyFilePath") = .ok c₂ →
        fileReads (script w s).log =
          [w.getInput "subjectFilePath", w.getInput "rawBodyFilePath"] ∧
        (script w s).out = .error (invalidInput k))) := by
  have key : ∀ k' ∈ requiredKeys, (w.getInput k' = "" ↔ k' = k) := by
    intro k' hk'
    constructor
    · intro h
      by_contra hne
      exact hothers k' hk' hne h
    · rintro rfl
      exact hempty
  simp only [requiredKeys, List.mem_cons, List.mem_singleton, forall_eq_or_imp, forall_eq,
    List.not_mem_nil, false_imp_iff, implies_true, and_true] at key
  obtain ⟨k1, k2, k3, k4, k5, k6, k7⟩ := key
  simp only [requiredKeys, List.mem_cons, List.mem_singleton, List.not_mem_nil, or_false] at hk
  have h := script_outcome w s
  generalize script w s = r at h
  cases h with
  | noRegion h1 =>
    obtain rfl := k1.mp h1
    simp [commands, fileReads]
  | noAccessKey h1 h2 =>
    obtain rfl := k2.mp h2
    simp [commands, fileReads]
  | noSecretKey h1 h2 h3 =>
    obtain rfl := k3.mp h3
    simp [commands, fileReads]
  | rejected r e h1 h2 h3 hr he =>
    have n1 : "sesRegion" ≠ k := fun h => h1 (k1.mpr h)
    have n2 : "awsAccessKey" ≠ k := fun h => h2 (k2.mpr h)
    have n3 : "awsSecretKey" ≠ k := fun h => h3 (k3.mpr h)
    cases hr with
    | inputs l e' hl =>
      simp only [Except.error.injEq] at he
      subst he
      cases hl with
      | noName a1 =>
        obtain rfl := k4.mp a1
        simp [commands, fileReads]
      | noSubjectPath a1 a2 =>
        obtain rfl := k5.mp a2
        simp [commands, fileReads]
      | subjectUnread e1 a1 a2 a3 =>
        have n4 : "templateName" ≠ k := fun h => a1 (k4.mpr h)
        have n5 : "subjectFilePath" ≠ k := fun h => a2 (k5.mpr h)
        rcases hk with rfl | rfl | rfl | rfl | rfl | rfl | rfl <;>
          simp_all [commands, fileReads, inputReads]
      | noRawPath cs a1 a2 a3 a4 =>
        obtain rfl := k6.mp a4
        simp [commands, fileReads, inputReads]
      | rawUnread cs e1 a1 a2 a3 a4 a5 =>
        have n4 : "templateName" ≠ k := fun h => a1 (k4.mpr h)
        have n5 : "subjectFilePath" ≠ k := fun h => a2 (k5.mpr h)
        have n6 : "rawBodyFilePath" ≠ k := fun h => a4 (k6.mpr h)
        rcases hk with rfl | rfl | rfl | rfl | rfl | rfl | rfl <;>
          simp_all [commands, fileReads, inputReads]
      | noHtmlPath cs ct a1 a2 a3 a4 a5 a6 =>
        obtain rfl := k7.mp a6
        simp_all [commands, fileReads, inputReads]
      | htmlUnread cs ct e1 a1 a2 a3 a4 a5 a6 a7 =>
        exfalso
        have n4 : "templateName" ≠ k := fun h => a1 (k4.mpr h)
        have n5 : "subjectFilePath" ≠ k := fun h => a2 (k5.mpr h)
        have n6 : "rawBodyFilePath" ≠ k := fun h => a4 (k6.mpr h)
        have n7 : "htmlBodyFilePath" ≠ k := fun h => a6 (k7.mpr h)
        rcases hk with rfl | rfl | rfl | rfl | rfl | rfl | rfl <;> simp_all
      | minifyThrows cs ct c e1 a1 a2 a3 a4 a5 a6 a7 a8 =>
        exfalso
        have n4 : "templateName" ≠ k := fun h => a1 (k4.mpr h)
        have n5 : "subjectFilePath" ≠ k := fun h => a2 (k5.mpr h)
        have n6 : "rawBodyFilePath" ≠ k := fun h => a4 (k6.mpr h)
        have n7 : "htmlBodyFilePath" ≠ k := fun h => a6 (k7.mpr h)
        rcases hk with rfl | rfl | rfl | rfl | rfl | rfl | rfl <;> simp_all
    | reconcile n cs ct hm r e hin hr he' =>
      exfalso
      have n4 : "templateName" ≠ k := fun h => hin.name_ne (k4.mpr h)
      have n5 : "subjectFilePath" ≠ k := fun h => hin.subject_ne (k5.mpr h)
      have n6 : "rawBodyFilePath" ≠ k := fun h => hin.raw_ne (k6.mpr h)
      have n7 : "htmlBodyFilePath" ≠ k := fun h => hin.html_ne (k7.mpr h)
      rcases hk with rfl | rfl | rfl | rfl | rfl | rfl | rfl <;> simp_all
    | afterFails n cs ct hm r e s1 hin hr hok hg =>
      exfalso
      have n4 : "templateName" ≠ k := fun h => hin.name_ne (k4.mpr h)
      have n5 : "subjectFilePath" ≠ k := fun h => hin.subject_ne (k5.mpr h)
      have n6 : "rawBodyFilePath" ≠ k := fun h => hin.raw_ne (k6.mpr h)
      have n7 : "htmlBodyFilePath" ≠ k := fun h => hin.html_ne (k7.mpr h)
      rcases hk with rfl | rfl | rfl | rfl | rfl | rfl | rfl <;> simp_all
    | done n cs ct hm r g s1 hin hr hok hg => simp at he
  | fulfilled r h1 h2 h3 hr he =>
    exfalso
    have n1 : "sesRegion" ≠ k := fun h => h1 (k1.mpr h)
    have n2 : "awsAccessKey" ≠ k := fun h => h2 (k2.mpr h)
    have n3 : "awsSecretKey" ≠ k := fun h => h3 (k3.mpr h)
    cases hr with
    | inputs l e hl => simp at he
    | reconcile n cs ct hm r e hin hr he' => simp at he
    | afterFails n cs ct hm r e s1 hin hr hok hg => simp at he
    | done n cs ct hm r g s1 hin hr hok hg =>
      have n4 : "templateName" ≠ k := fun h => hin.name_ne (k4.mpr h)
      have n5 : "subjectFilePath" ≠ k := fun h => hin.subject_ne (k5.mpr h)
      have n6 : "rawBodyFilePath" ≠ k := fun h => hin.raw_ne (k6.mpr h)
      have n7 : "htmlBodyFilePath" ≠ k := fun h => hin.html_ne (k7.mpr h)
      rcases hk with rfl | rfl | rfl | rfl | rfl | rfl | rfl <;> simp_all

theorem missing_input_stops_before_store_witness :
    "rawBodyFilePath" ∈ requiredKeys ∧
    ((demoWorld modelClient).without "rawBodyFilePath").getInput "rawBodyFilePath" = "" ∧
    (∀ k' ∈ requiredKeys, k' ≠ "rawBodyFilePath" →
      ((demoWorld modelClient).without "rawBodyFilePath").getInput k' ≠ "") ∧
    fileReads (script ((demoWorld modelClient).without "rawBodyFilePath") []).log =
      ["subject.txt"] ∧
    (script ((demoWorld modelClient).without "rawBodyFilePath") []).out =
      .error (invalidInput "rawBodyFilePath") :=
  ⟨by decide, by decide, by decide,
    ((missing_input_stops_before_store ((demoWorld modelClient).without "rawBodyFilePath") []
      "rawBodyFilePath" (by decide) (by decide) (by decide)).2.2.1 rfl).1,
    ((missing_input_stops_before_store ((demoWorld modelClient).without "rawBodyFilePath") []
      "rawBodyFilePath" (by decide) (by decide) (by decide)).2.2.1 rfl).2 "Hi" (by decide)⟩

/-- C4 as stated fails: with `rawBodyFilePath` the only missing input, the
subject file is read before the script fails. -/
theorem fail_fast_counterexample :
    "rawBodyFilePath" ∈ requiredKeys ∧
    ((demoWorld modelClient).without "rawBodyFilePath").getInput "rawBodyFilePath" = "" ∧
    (∀ k' ∈ requiredKeys, k' ≠ "rawBodyFilePath" →
      ((demoWorld modelClient).without "rawBodyFilePath").getInput k' ≠ "") ∧
    (script ((demoWorld modelClient).without "rawBodyFilePath") []).log =
      [Event.readFile "subject.txt",
        Event.setFailed "Invalid rawBodyFilePath: did you forget to set it in your action config?"] ∧
    ¬ fileReads (script ((demoWorld modelClient).without "rawBodyFilePath") []).log = [] := by
  decide

/-- C7 fails on the code: with `sesRegion` unset the module throws while it
builds the client, before `run().catch` exists, so the script ends on the
error and `CORE.setFailed` is never called. -/
theorem connection_input_error_unreported :
    (script ((demoWorld modelClient).without "sesRegion") []).out =
      .error ⟨"Error", "Invalid sesRegion: did you forget to set it in your action config?"⟩ ∧
    failedWith (script ((demoWorld modelClient).without "sesRegion") []).log = [] ∧
    (script ((demoWorld modelClient).without "sesRegion") []).log = [] := by
  decide

theorem run_never_setFailed (w : World σ) (client : SESClient σ) (s : σ) :
    failedWith (run w client s).log = [] := by
  have h := run_outcome w client s
  generalize run w client s = r at h
  have hq := inputReads_quiet w
  cases h with
  | inputs l e hl => exact (inputsFail_quiet w hl).2.2.2.1
  | reconcile n cs ct hm r e hin hr he => cases hr <;> simp [hq, failedWith]
  | afterFails n cs ct hm r e s1 hin hr hok hg => cases hr <;> simp [hq, failedWith]
  | done n cs ct hm r g s1 hin hr hok hg => cases hr <;> simp [hq, failedWith]

/-- Every error thrown inside `run` is reported once through `CORE.setFailed`,
as the last event, and thrown again. -/
theorem run_errors_reported (w : World σ) (s : σ) (e : JsError)
    (h1 : w.getInput "sesRegion" ≠ "") (h2 : w.getInput "awsAccessKey" ≠ "")
    (h3 : w.getInput "awsSecretKey" ≠ "") (he : (run w (clientOf w) s).out = .error e) :
    (script w s).out = .error e ∧
    (script w s).log = (run w (clientOf w) s).log ++ [Event.setFailed e.message] ∧
    failedWith (script w s).log = [e.message] := by
  have hf := run_never_setFailed w (clientOf w) s
  rcases hu : run w (clientOf w) s with ⟨l, e' | u, s1⟩
  · rw [hu] at he hf
    simp only [Except.error.injEq] at he
    subst he
    have : script w s = ⟨l ++ [Event.setFailed e'.message], .error e', s1⟩ := by
      simp only [clientOf] at hu
      simp [script, SES_CLIENT, SIMULATING_ON_LOCAL, bind, Prog.bind, getInputValue_set, h1, h2,
        h3, pure, Prog.pure, Prog.catch, hu, CORE.setFailed, emit, throwJs]
    rw [this]
    simp only [failedWith_append] at *
    simp [hf, failedWith]
  · rw [hu] at he
    simp at he

/-! ### The model store -/

theorem model_find_after_create (store : List Template) (T : Template)
    (h : store.any (fun u => decide (u.TemplateName = T.TemplateName)) = false) :
    (store ++ [T]).find? (fun t => decide (t.TemplateName = T.TemplateName)) = some T := by
  induction store with
  | nil => simp
  | cons u us ih =>
    simp only [List.any_cons, Bool.or_eq_false_iff, decide_eq_false_iff_not] at h
    simp [List.find?_cons, h.1, ih h.2]

theorem model_find_after_update (store : List Template) (T : Template)
    (h : store.any (fun u => decide (u.TemplateName = T.TemplateName)) = true) :
    (store.map (fun u => if u.TemplateName = T.TemplateName then T else u)).find?
      (fun t => decide (t.TemplateName = T.TemplateName)) = some T := by
  induction store with
  | nil => simp at h
  | cons u us ih =>
    by_cases hu : u.TemplateName = T.TemplateName
    · simp [List.find?_cons, hu]
    · simp only [List.any_cons, hu, decide_False, Bool.false_or] at h
      simp [List.find?_cons, hu, ih h]

/-- C2: over the model store, after `updateTemplateOnAwsSes` succeeds, fetching
the template by its name returns the name with exactly the subject, text and
HTML parts that were passed, on the create path and on the update path. -/
theorem reconcile_postcondition (w : World (List Template)) (n sj tx hm : String)
    (store : List Template)
    (hok : (updateTemplateOnAwsSes w modelClient n sj tx hm store).out = .ok ()) :
    (getTemplateFromAwsSes modelClient n
      (updateTemplateOnAwsSes w modelClient n sj tx hm store).st).out =
      .ok ⟨some { TemplateName := n, HtmlPart := some hm, SubjectPart := some sj,
                  TextPart := some tx }⟩ := by
  have h := reconcile_outcome w modelClient n sj tx hm store
  revert hok
  generalize updateTemplateOnAwsSes w modelClient n sj tx hm store = r at h
  intro hok
  cases h with
  | listFails e s1 h1 => simp at hok
  | createFails lst s1 e s2 h1 h2 h3 => simp at hok
  | fetchFails lst s1 e s2 h1 h2 h3 => simp at hok
  | updateFails lst s1 g s2 e s3 h1 h2 h3 h4 => simp at hok
  | created lst s1 s2 h1 h2 h3 =>
    simp only [modelClient, Prod.mk.injEq, Except.ok.injEq] at h1
    obtain ⟨-, rfl⟩ := h1
    simp only [modelClient, payload] at h3
    split_ifs at h3 with ha
    · simp at h3
    · simp only [Prod.mk.injEq, true_and] at h3
      subst h3
      have := model_find_after_create store ⟨n, some hm, some sj, some tx⟩ (by simpa using ha)
      simp only at this
      simp [getTemplateFromAwsSes, bind, Prog.bind, send, modelClient, this, pure, Prog.pure]
  | updated lst s1 g s2 s3 h1 h2 h3 h4 =>
    simp only [modelClient, Prod.mk.injEq, Except.ok.injEq] at h1
    obtain ⟨-, rfl⟩ := h1
    have hs2 : s2 = store := by
      simp only [modelClient] at h3
      split at h3
      · simp only [Prod.mk.injEq] at h3
        exact h3.2.symm
      · simp at h3
    subst hs2
    simp only [modelClient, payload] at h4
    split_ifs at h4 with ha
    · simp only [Prod.mk.injEq, true_and] at h4
      subst h4
      have := model_find_after_update s2 ⟨n, some hm, some sj, some tx⟩ ha
      simp only at this
      simp [getTemplateFromAwsSes, bind, Prog.bind, send, modelClient, this, pure, Prog.pure]
    · simp at h4

theorem reconcile_postcondition_witness :
    (updateTemplateOnAwsSes (demoWorld modelClient) modelClient "Welcome" "Hi" "Hello" "<p>Hi</p>"
      [goodbye, oldWelcome]).out = .ok () ∧
    (getTemplateFromAwsSes modelClient "Welcome"
      (updateTemplateOnAwsSes (demoWorld modelClient) modelClient "Welcome" "Hi" "Hello"
        "<p>Hi</p>" [goodbye, oldWelcome]).st).out =
      .ok ⟨some { TemplateName := "Welcome", HtmlPart := some "<p>Hi</p>",
                  SubjectPart := some "Hi", TextPart := some "Hello" }⟩ :=
  ⟨by decide,
    reconcile_postcondition (demoWorld modelClient) "Welcome" "Hi" "Hello" "<p>Hi</p>"
      [goodbye, oldWelcome] (by decide)⟩

theorem run_of_inputsOk (w : World σ) (client : SESClient σ) (s : σ) {n cs ct hm : String}
    (hin : InputsOk w n cs ct hm) {l : List Event} {s1 : σ}
    (hu : updateTemplateOnAwsSes w client n cs ct hm s = ⟨l, .ok (), s1⟩)
    {g : GetTemplateOutput} {s2 : σ} (hg : client.getTemplate n s1 = (.ok g, s2)) :
    run w client s =
      ⟨inputReads w ++ (l ++ [Event.send (Command.GetTemplate n) none,
        Event.info ("Template on AWS SES after updating: " ++ w.stringify g.Template)]),
        .ok (), s2⟩ := by
  have h0 := hin.name
  subst h0
  obtain ⟨c, hc, hmin⟩ := hin.html
  have h1 := hin.name_ne
  have h2 := hin.subject_ne
  have h3 := hin.raw_ne
  have h4 := hin.html_ne
  have h5 := hin.subject
  have h6 := hin.raw
  simp [run, bind, Prog.bind, getInputValue_set, getFileContents_eq, call, inputReads,
    h1, h2, h3, h4, h5, h6, hc, hmin, hu, getTemplateFromAwsSes, send, hg, pure,
    Prog.pure, CORE.info, emit]

theorem model_reconcile_first (w : World (List Template)) (n sj tx hm : String) :
    updateTemplateOnAwsSes w modelClient n sj tx hm [] =
      ⟨[Event.send (Command.ListTemplates ListTemplatesInput.empty) none,
        Event.send (Command.CreateTemplate (payload n sj tx hm)) none], .ok (),
        [payload n sj tx hm]⟩ := by
  simp [updateTemplateOnAwsSes, bind, Prog.bind, send, modelClient, findIndex, payload]

theorem model_reconcile_second (w : World (List Template)) (n sj tx hm : String) :
    updateTemplateOnAwsSes w modelClient n sj tx hm [payload n sj tx hm] =
      ⟨[Event.send (Command.ListTemplates ListTemplatesInput.empty) none,
        Event.send (Command.GetTemplate n) none,
        Event.info ("Template on AWS SES before updating: " ++
          w.stringify (some (payload n sj tx hm))),
        Event.send (Command.UpdateTemplate (payload n sj tx hm)) none], .ok (),
        [payload n sj tx hm]⟩ := by
  simp [updateTemplateOnAwsSes, bind, Prog.bind, send, modelClient, findIndex, payload,
    getTemplateFromAwsSes, pure, Prog.pure, CORE.info, emit]

theorem model_get_payload (n sj tx hm : String) :
    modelClient.getTemplate n [payload n sj tx hm] =
      (.ok ⟨some (payload n sj tx hm)⟩, [payload n sj tx hm]) := by
  simp [modelClient, payload]

/-- C3: over the model store, starting empty, reconciling a template makes one
`CreateTemplate` call and no `UpdateTemplate` call; reconciling it again from
the state the first left makes one `UpdateTemplate` call and no
`CreateTemplate` call; after each the store holds the template as passed. The
same holds for two runs of `run` whose inputs load, the second starting from
the state the first left. -/
theorem reconcile_twice (w : World (List Template)) (n sj tx hm : String) :
    ((updateTemplateOnAwsSes w modelClient n sj tx hm []).out = .ok () ∧
      commands (updateTemplateOnAwsSes w modelClient n sj tx hm []).log =
        [Command.ListTemplates ListTemplatesInput.empty,
          Command.CreateTemplate
            { TemplateName := n, HtmlPart := some hm, SubjectPart := some sj,
              TextPart := some tx }] ∧
      (modelClient.getTemplate n (updateTemplateOnAwsSes w modelClient n sj tx hm []).st).1 =
        .ok ⟨some { TemplateName := n, HtmlPart := some hm, SubjectPart := some sj,
                    TextPart := some tx }⟩) ∧
    ((updateTemplateOnAwsSes w modelClient n sj tx hm
        (updateTemplateOnAwsSes w modelClient n sj tx hm []).st).out = .ok () ∧
      commands (updateTemplateOnAwsSes w modelClient n sj tx hm
        (updateTemplateOnAwsSes w modelClient n sj tx hm []).st).log =
        [Command.ListTemplates ListTemplatesInput.empty, Command.GetTemplate n,
          Command.UpdateTemplate
            { TemplateName := n, HtmlPart := some hm, SubjectPart := some sj,
              TextPart := some tx }] ∧
      (modelClient.getTemplate n (updateTemplateOnAwsSes w modelClient n sj tx hm
        (updateTemplateOnAwsSes w modelClient n sj tx hm []).st).st).1 =
        .ok ⟨some { TemplateName := n, HtmlPart := some hm, SubjectPart := some sj,
                    TextPart := some tx }⟩) ∧
    (InputsOk w n sj tx hm →
      ((run w modelClient []).out = .ok () ∧
        commands (run w modelClient []).log =
          [Command.ListTemplates ListTemplatesInput.empty,
            Command.CreateTemplate
              { TemplateName := n, HtmlPart := some hm, SubjectPart := some sj,
                TextPart := some tx },
            Command.GetTemplate n] ∧
        (modelClient.getTemplate n (run w modelClient []).st).1 =
          .ok ⟨some { TemplateName := n, HtmlPart := some hm, SubjectPart := some sj,
                      TextPart := some tx }⟩) ∧
      ((run w modelClient (run w modelClient []).st).out = .ok () ∧
        commands (run w modelClient (run w modelClient []).st).log =
          [Command.ListTemplates ListTemplatesInput.empty, Command.GetTemplate n,
            Command.UpdateTemplate
              { TemplateName := n, HtmlPart := some hm, SubjectPart := some sj,
                TextPart := some tx },
            Command.GetTemplate n] ∧
        (modelClient.getTemplate n (run w modelClient (run w modelClient []).st).st).1 =
          .ok ⟨some { TemplateName := n, HtmlPart := some hm, SubjectPart := some sj,
                      TextPart := some tx }⟩)) := by
  have hq := inputReads_quiet w
  have hg := model_get_payload n sj tx hm
  refine ⟨?_, ?_, ?_⟩
  · rw [model_reconcile_first]
    simp only [hg]
    simp [commands, payload]
  · rw [model_reconcile_first]
    simp only [model_reconcile_second, hg]
    simp [commands, payload]
  · intro hin
    have hrun1 := run_of_inputsOk w modelClient [] hin (model_reconcile_first w n sj tx hm) hg
    have hrun2 := run_of_inputsOk w modelClient [payload n sj tx hm] hin
      (model_reconcile_second w n sj tx hm) hg
    rw [hrun1]
    simp only [hrun2, hg]
    simp [commands, payload, hq]

theorem reconcile_twice_witness :
    InputsOk (demoWorld modelClient) "Welcome" "Hi" "Hello" "<p>Hi</p>" ∧
    (run (demoWorld modelClient) modelClient []).out = .ok () ∧
    commands (run (demoWorld modelClient) modelClient []).log =
      [Command.ListTemplates ListTemplatesInput.empty, Command.CreateTemplate welcome,
        Command.GetTemplate "Welcome"] ∧
    (run (demoWorld modelClient) modelClient
      (run (demoWorld modelClient) modelClient []).st).out = .ok () ∧
    commands (run (demoWorld modelClient) modelClient
      (run (demoWorld modelClient) modelClient []).st).log =
      [Command.ListTemplates ListTemplatesInput.empty, Command.GetTemplate "Welcome",
        Command.UpdateTemplate welcome, Command.GetTemplate "Welcome"] :=
  have hin : InputsOk (demoWorld modelClient) "Welcome" "Hi" "Hello" "<p>Hi</p>" :=
    ⟨by decide, by decide, by decide, by decide, by decide, by decide, by decide,
      ⟨"<p> Hi </p>", by decide, by decide⟩⟩
  have h := (reconcile_twice (demoWorld modelClient) "Welcome" "Hi" "Hello" "<p>Hi</p>").2.2 hin
  ⟨hin, h.1.1, h.1.2.1, h.2.1, h.2.2.1⟩

end

end SesTemplateUpdater
